import Mathlib

/-!
Verification development for the digital_twin_rossi discrete-event
production simulator.  The Python sources (simulazione_core.py,
configurazione.py, main.py, domain/services/scenario_service.py) are
shallowly embedded: simulated time and durations are rationals, the
cooperative simpy scheduler is collapsed to explicit state passing (one
logical process runs at a time, which matches the single-threaded
cooperative model of the source), and the seeded random.Random generator
is modelled as an explicitly threaded deterministic stream.  Blocking
constructs (buffer get against an empty store, loops bounded in the
source by strictly advancing time) are represented with Option results
and an explicit fuel parameter: a `none` result means the process is
still suspended (or fuel ran out), a `some` result is the state in which
the process resumes.
-/

namespace DigitalTwinRossi

/-- Product catalogue (configurazione.py, class TipoProdotto). -/
inductive TipoProdotto where
  | FL_01
  | PN_03
  | IN_07
  | RD_01
deriving DecidableEq, Repr

/-- String value of each product code (the str-enum values of the source). -/
def TipoProdotto.value : TipoProdotto → String
  | .FL_01 => "FL-01"
  | .PN_03 => "PN-03"
  | .IN_07 => "IN-07"
  | .RD_01 => "RD-01"

/-- Machine catalogue (configurazione.py, class TipoMacchinario). -/
inductive TipoMacchinario where
  | troncatrice
  | trapano
  | tornio
  | fresa
  | rettifica
  | forno
  | bancoAssemblaggio
  | bancoCollaudo
  | bancoControllo
deriving DecidableEq, Repr

/-- Operator kinds (configurazione.py, class TipoOperatore). -/
inductive TipoOperatore where
  | generico
  | specializzato
deriving DecidableEq, Repr

/-- Scheduling policies (configurazione.py, class PoliticaSchedulazione). -/
inductive PoliticaSchedulazione where
  | FIFO
  | SPT
  | EDD
deriving DecidableEq, Repr

/-- Python int() on a rational: truncation toward zero. -/
def pyint (q : ℚ) : ℤ := if 0 ≤ q then ⌊q⌋ else -⌊-q⌋

/-- Python round() on a rational: round half to even (banker's rounding). -/
def pyround (q : ℚ) : ℤ :=
  let f := ⌊q⌋
  let r := q - f
  if r < 1/2 then f
  else if 1/2 < r then f + 1
  else if f % 2 = 0 then f else f + 1

/-- Python float modulo for a positive modulus: a - n * floor (a / n). -/
def pymod (a n : ℚ) : ℚ := a - n * ⌊a / n⌋

/-- MINUTI_GIORNALIERI = 1440 (simulazione_core.py line 13). -/
def MINUTI_GIORNALIERI : ℤ := 1440

/--
Configuration data container (configurazione.py, class
ConfigurazioneSimulazione).  Dictionaries keyed by the finite enums are
embedded as total functions; entries absent from the source dicts are 0
(they are never referenced by the routings).  Economic fields (prices,
hourly costs, penalties) are out of the scope of the claims and omitted.
-/
structure ConfigurazioneSimulazione where
  tempi_lavorazione : TipoMacchinario → TipoProdotto → ℚ
  capacita_macchine : TipoMacchinario → ℕ
  capacita_operatori : TipoOperatore → ℕ
  probabilita_rifacimento : ℚ
  richiede_specialista : Bool
  limiti_produzione_giornaliera : Option (TipoProdotto → Option ℕ) := none
  limite_produzione_totale_giornaliera : Option ℕ := none
  fattore_variabilita_processo : ℚ := 1/10
  tempo_setup_minuti : ℚ := 0
  probabilita_guasto : ℚ := 0
  minuti_riparazione_min : ℤ := 60
  minuti_riparazione_max : ℤ := 180
  minuti_buffer_sicurezza_assemblaggio : ℤ := 300
  orario_inizio_turno : ℤ := 8
  orario_fine_turno : ℤ := 17
  distinta_base : Option (TipoProdotto → TipoProdotto → ℕ) := none
  livelli_scorta_minima : Option (TipoProdotto → Option ℕ) := none
  lotto_riordino_standard : Option (TipoProdotto → Option ℕ) := none

/-- Processing-time table of the base configuration
(configurazione.py, GestoreConfigurazione._crea_configurazione_base). -/
def tempiBase : TipoMacchinario → TipoProdotto → ℚ
  | .troncatrice, .FL_01 => 10
  | .troncatrice, .PN_03 => 15
  | .troncatrice, .IN_07 => 30
  | .trapano, .FL_01 => 10
  | .tornio, .PN_03 => 30
  | .fresa, .IN_07 => 45
  | .rettifica, .PN_03 => 20
  | .rettifica, .IN_07 => 20
  | .forno, .IN_07 => 12
  | .bancoAssemblaggio, .RD_01 => 60
  | .bancoCollaudo, .RD_01 => 30
  | .bancoControllo, .FL_01 => 10
  | .bancoControllo, .PN_03 => 10
  | .bancoControllo, .IN_07 => 10
  | _, _ => 0

/-- Machine capacities of the base configuration. -/
def capacitaMacchineBase : TipoMacchinario → ℕ
  | .troncatrice => 3
  | .tornio => 3
  | .fresa => 2
  | .trapano => 2
  | .rettifica => 2
  | .forno => 1
  | .bancoAssemblaggio => 2
  | .bancoCollaudo => 2
  | .bancoControllo => 2

/-- Operator capacities of the base configuration. -/
def capacitaOperatoriBase : TipoOperatore → ℕ
  | .generico => 6
  | .specializzato => 3

/-- Bill of materials of the base configuration: RD-01 requires one
FL-01 and two PN-03 (configurazione.py lines 123-128). -/
def distintaBase : TipoProdotto → TipoProdotto → ℕ
  | .RD_01, .FL_01 => 1
  | .RD_01, .PN_03 => 2
  | _, _ => 0

/-- The base configuration returned by
GestoreConfigurazione._crea_configurazione_base. -/
def configurazione_base : ConfigurazioneSimulazione where
  tempi_lavorazione := tempiBase
  capacita_macchine := capacitaMacchineBase
  capacita_operatori := capacitaOperatoriBase
  probabilita_rifacimento := 1/20
  richiede_specialista := true
  fattore_variabilita_processo := 0
  tempo_setup_minuti := 15
  probabilita_guasto := 1/100
  distinta_base := some distintaBase

/--
Deterministic model of the seeded random.Random stream created by
MotoreSimulazione (simulazione_core.py lines 242-245) and threaded,
unchanged, into SistemaProduttivo (scenario_service.py line 39).  The
exact Mersenne-Twister bit stream is not reproduced; what the claims
rely on is that the stream is a pure function of the seed and is the
single source of every stochastic decision, which this model preserves.
-/
structure Rng where
  stato : ℕ
deriving DecidableEq, Repr

/-- random.Random(seme): the generator determined by the seed. -/
def mkRng (seme : ℕ) : Rng := ⟨seme⟩

/-- Advance the generator one step (linear congruential model). -/
def rngNext (r : Rng) : ℕ × Rng :=
  let s := (r.stato * 1103515245 + 12345) % 2147483648
  (s, ⟨s⟩)

/-- rng.random(): a rational in [0, 1). -/
def rngRandom (r : Rng) : ℚ × Rng :=
  let (n, r') := rngNext r
  (((n % 1000000 : ℕ) : ℚ) / 1000000, r')

/-- rng.uniform(a, b). -/
def rngUniform (a b : ℚ) (r : Rng) : ℚ × Rng :=
  let (u, r') := rngRandom r
  (a + (b - a) * u, r')

/-- rng.randint(lo, hi): an integer in [lo, hi] (inclusive). -/
def rngRandint (lo hi : ℤ) (r : Rng) : ℤ × Rng :=
  let (n, r') := rngNext r
  (lo + (n : ℤ) % (hi - lo + 1), r')

/-- Usage categories of RisorsaProduttiva.registra_tempo_utilizzo
(the source uses the strings lavorazione / setup / guasto). -/
inductive TipoUtilizzo where
  | lavorazione
  | setup
  | guasto
deriving DecidableEq, Repr

/-- One entry of a resource event log (the dicts appended to
log_eventi in the source). -/
structure Evento where
  tipo : String
  inizio : ℚ
  fine : ℚ
  ordine : Option String := none
  descrizione : String
deriving DecidableEq, Repr

/-- One entry of a work-order operation log (the dicts appended to
log_lavorazioni in the source). -/
structure LogLavorazione where
  fase : TipoMacchinario
  durata : ℚ
  operatore : Option TipoOperatore
  inizio : ℚ
  fine : ℚ
deriving DecidableEq, Repr

/-- State of a RisorsaProduttiva (machine or operator): capacity, usage
counters, the last-processed-product marker and the event log
(simulazione_core.py lines 131-153 and 535/547). -/
structure StatoMacchina where
  capacita : ℕ := 1
  ultimo_prodotto : Option TipoProdotto := none
  tempo_occupato_totale : ℚ := 0
  tempo_lavorazione : ℚ := 0
  tempo_setup : ℚ := 0
  tempo_guasto : ℚ := 0
  log_eventi : List Evento := []
deriving DecidableEq, Repr

/-- RisorsaProduttiva.registra_tempo_utilizzo. -/
def registra_tempo_utilizzo (st : StatoMacchina) (durata : ℚ) (tipo : TipoUtilizzo) : StatoMacchina :=
  let st := { st with tempo_occupato_totale := st.tempo_occupato_totale + durata }
  match tipo with
  | .lavorazione => { st with tempo_lavorazione := st.tempo_lavorazione + durata }
  | .setup => { st with tempo_setup := st.tempo_setup + durata }
  | .guasto => { st with tempo_guasto := st.tempo_guasto + durata }

/-- RisorsaProduttiva.calcola_tasso_utilizzo (simulazione_core.py lines
166-184): net productive saturation; breakdown time is excluded from
the numerator, and both a zero horizon and a zero reported capacity
short-circuit to 0. -/
def calcola_tasso_utilizzo (st : StatoMacchina) (orizzonte_temporale : ℚ) : ℚ :=
  if orizzonte_temporale = 0 then 0
  else
    if st.capacita = 0 then 0
    else
      let disponibilita_teorica := orizzonte_temporale * (st.capacita : ℚ)
      let tempo_produttivo := st.tempo_lavorazione + st.tempo_setup
      tempo_produttivo / disponibilita_teorica * 100

/-- Prodotto (simulazione_core.py lines 198-202). -/
structure Prodotto where
  id : TipoProdotto
  nome : String
deriving DecidableEq, Repr

/-- OrdineDiLavoro (simulazione_core.py lines 204-229).
tempo_completamento is Optional in the source (None until finished);
componenti_consumati holds, in this embedding, the identifiers of the
consumed component orders (the source appends the order objects
themselves; only their identity is needed by the claims). -/
structure OrdineDiLavoro where
  id : String
  prodotto : Prodotto
  tempo_creazione : ℚ
  scadenza : ℚ
  tempo_completamento : Option ℚ := none
  cronologia_fasi : List TipoMacchinario := []
  log_lavorazioni : List LogLavorazione := []
  consumato : Bool := false
  componenti_consumati : List String := []
deriving DecidableEq, Repr

/-- OrdineDiLavoro.tempo_attraversamento (lines 220-225): the source
guards with Python truthiness, `if self.tempo_completamento:`, which is
False both for None and for the float 0.0. -/
def tempo_attraversamento (o : OrdineDiLavoro) : Option ℚ :=
  match o.tempo_completamento with
  | some c => if c = 0 then none else some (c - o.tempo_creazione)
  | none => none

/--
GestoreTurni.attendi_turno_lavorativo (simulazione_core.py lines
61-107) for a GestoreTurni constructed without a GestoreTempo (the
gestore_tempo = None case of the source: the weekend branch is then
skipped).  The source loops until the current minute-of-day lies inside
the shift window; each iteration waits (a strictly positive timeout)
toward the next shift opening.  The loop is given explicit fuel; a
`some r` result is the time at which the caller resumes inside the
shift window.
-/
def attendiTurnoLoop : ℕ → ConfigurazioneSimulazione → ℚ → Option ℚ
  | 0, _, _ => none
  | fuel + 1, cfg, now =>
    let m : ℤ := (pyround now) % 1440
    let minuti_inizio : ℤ := cfg.orario_inizio_turno * 60
    let minuti_fine : ℤ := cfg.orario_fine_turno * 60
    if minuti_fine ≤ m then
      let tempo_attesa : ℚ := (((1440 - m) + minuti_inizio : ℤ) : ℚ)
      let tempo_attesa := if tempo_attesa ≤ 0 then 1 else tempo_attesa
      attendiTurnoLoop fuel cfg (now + tempo_attesa)
    else if m < minuti_inizio then
      let tempo_attesa : ℚ := ((minuti_inizio - m : ℤ) : ℚ)
      let tempo_attesa := if tempo_attesa ≤ 0 then 1 else tempo_attesa
      attendiTurnoLoop fuel cfg (now + tempo_attesa)
    else
      some now

/--
GestoreTurni.avanza_tempo_lavorativo (simulazione_core.py lines
109-129): consume durata_minuti of working time, splitting it across
shift boundaries; each iteration waits for the shift, then consumes at
most the residual time of the current shift.  Tolerance 1e-6 as in the
source.
-/
def avanzaTempoLavorativo : ℕ → ConfigurazioneSimulazione → ℚ → ℚ → Option ℚ
  | 0, _, _, _ => none
  | fuel + 1, cfg, durata_minuti, now =>
    if durata_minuti ≤ 1/1000000 then some now
    else
      match attendiTurnoLoop (fuel + 1) cfg now with
      | none => none
      | some now1 =>
        let minuti_giornalieri := pymod now1 1440
        let minuti_fine_turno : ℚ := ((cfg.orario_fine_turno * 60 : ℤ) : ℚ)
        let tempo_residuo_turno := minuti_fine_turno - minuti_giornalieri
        if tempo_residuo_turno ≤ 1/1000000 then
          match attendiTurnoLoop (fuel + 1) cfg now1 with
          | none => none
          | some now2 => avanzaTempoLavorativo fuel cfg durata_minuti now2
        else
          let dt := min durata_minuti tempo_residuo_turno
          avanzaTempoLavorativo fuel cfg (durata_minuti - dt) (now1 + dt)

theorem attendiTurnoLoop_le (fuel : ℕ) :
    ∀ (cfg : ConfigurazioneSimulazione) (now r : ℚ),
    attendiTurnoLoop fuel cfg now = some r → now ≤ r := by
  induction fuel with
  | zero =>
    intro cfg now r h
    simp [attendiTurnoLoop] at h
  | succ n ih =>
    intro cfg now r h
    simp only [attendiTurnoLoop] at h
    split at h
    · have hle := ih cfg _ r h
      have hpos : (0 : ℚ) <
          (if (((1440 - (pyround now) % 1440) + cfg.orario_inizio_turno * 60 : ℤ) : ℚ) ≤ 0
           then 1
           else (((1440 - (pyround now) % 1440) + cfg.orario_inizio_turno * 60 : ℤ) : ℚ)) := by
        split
        · norm_num
        · linarith [lt_of_not_le (by assumption)]
      linarith
    · split at h
      · have hle := ih cfg _ r h
        have hpos : (0 : ℚ) <
            (if ((cfg.orario_inizio_turno * 60 - (pyround now) % 1440 : ℤ) : ℚ) ≤ 0
             then 1
             else ((cfg.orario_inizio_turno * 60 - (pyround now) % 1440 : ℤ) : ℚ)) := by
          split
          · norm_num
          · linarith [lt_of_not_le (by assumption)]
        linarith
      · simp only [Option.some.injEq] at h
        exact le_of_eq h

theorem avanzaTempoLavorativo_le (fuel : ℕ) :
    ∀ (cfg : ConfigurazioneSimulazione) (durata now r : ℚ),
    avanzaTempoLavorativo fuel cfg durata now = some r → now ≤ r := by
  induction fuel with
  | zero =>
    intro cfg durata now r h
    simp [avanzaTempoLavorativo] at h
  | succ n ih =>
    intro cfg durata now r h
    simp only [avanzaTempoLavorativo] at h
    split at h
    · simp only [Option.some.injEq] at h
      exact le_of_eq h
    · rename_i hdur
      cases h1 : attendiTurnoLoop (n + 1) cfg now with
      | none => rw [h1] at h; simp at h
      | some now1 =>
        rw [h1] at h
        have hn1 : now ≤ now1 := attendiTurnoLoop_le _ cfg now now1 h1
        simp only at h
        split at h
        · cases h2 : attendiTurnoLoop (n + 1) cfg now1 with
          | none => rw [h2] at h; simp at h
          | some now2 =>
            rw [h2] at h
            have hn2 : now1 ≤ now2 := attendiTurnoLoop_le _ cfg now1 now2 h2
            have := ih cfg durata now2 r h
            linarith
        · rename_i hres
          have := ih cfg _ _ r h
          have hdt : 0 ≤ min durata (((cfg.orario_fine_turno * 60 : ℤ) : ℚ) - pymod now1 1440) := by
            have hd : (0 : ℚ) < durata := by
              have := lt_of_not_le hdur
              linarith
            have hr : (0 : ℚ) < ((cfg.orario_fine_turno * 60 : ℤ) : ℚ) - pymod now1 1440 := by
              have := lt_of_not_le hres
              linarith
            exact le_min (le_of_lt hd) (le_of_lt hr)
          linarith

/-- The machine park built by SistemaProduttivo._inizializza_asset:
one RisorsaProduttiva per TipoMacchinario. -/
structure ParcoMacchine where
  troncatrice : StatoMacchina
  trapano : StatoMacchina
  tornio : StatoMacchina
  fresa : StatoMacchina
  rettifica : StatoMacchina
  forno : StatoMacchina
  bancoAssemblaggio : StatoMacchina
  bancoCollaudo : StatoMacchina
  bancoControllo : StatoMacchina
deriving DecidableEq, Repr

def ParcoMacchine.get (p : ParcoMacchine) : TipoMacchinario → StatoMacchina
  | .troncatrice => p.troncatrice
  | .trapano => p.trapano
  | .tornio => p.tornio
  | .fresa => p.fresa
  | .rettifica => p.rettifica
  | .forno => p.forno
  | .bancoAssemblaggio => p.bancoAssemblaggio
  | .bancoCollaudo => p.bancoCollaudo
  | .bancoControllo => p.bancoControllo

def ParcoMacchine.set (p : ParcoMacchine) (m : TipoMacchinario) (st : StatoMacchina) : ParcoMacchine :=
  match m with
  | .troncatrice => { p with troncatrice := st }
  | .trapano => { p with trapano := st }
  | .tornio => { p with tornio := st }
  | .fresa => { p with fresa := st }
  | .rettifica => { p with rettifica := st }
  | .forno => { p with forno := st }
  | .bancoAssemblaggio => { p with bancoAssemblaggio := st }
  | .bancoCollaudo => { p with bancoCollaudo := st }
  | .bancoControllo => { p with bancoControllo := st }

/-- The operator pool built by SistemaProduttivo._inizializza_asset. -/
structure ParcoOperatori where
  generico : StatoMacchina
  specializzato : StatoMacchina
deriving DecidableEq, Repr

def ParcoOperatori.get (p : ParcoOperatori) : TipoOperatore → StatoMacchina
  | .generico => p.generico
  | .specializzato => p.specializzato

def ParcoOperatori.set (p : ParcoOperatori) (t : TipoOperatore) (st : StatoMacchina) : ParcoOperatori :=
  match t with
  | .generico => { p with generico := st }
  | .specializzato => { p with specializzato := st }

/-- The finished-goods stores buffer_scorte, one simpy.Store per
product (simulazione_core.py lines 416-418). -/
structure Scorte where
  fl01 : List OrdineDiLavoro := []
  pn03 : List OrdineDiLavoro := []
  in07 : List OrdineDiLavoro := []
  rd01 : List OrdineDiLavoro := []
deriving DecidableEq, Repr

def Scorte.get (s : Scorte) : TipoProdotto → List OrdineDiLavoro
  | .FL_01 => s.fl01
  | .PN_03 => s.pn03
  | .IN_07 => s.in07
  | .RD_01 => s.rd01

/-- store.put: append at the tail (simpy Store is FIFO on items). -/
def Scorte.put (s : Scorte) (p : TipoProdotto) (o : OrdineDiLavoro) : Scorte :=
  match p with
  | .FL_01 => { s with fl01 := s.fl01 ++ [o] }
  | .PN_03 => { s with pn03 := s.pn03 ++ [o] }
  | .IN_07 => { s with in07 := s.in07 ++ [o] }
  | .RD_01 => { s with rd01 := s.rd01 ++ [o] }

/-- Daily production counters (simulazione_core.py lines 443-446 and
617-662): the per-product dict is embedded with one counter per
product, absent keys being 0 as with dict.get(id, 0). -/
structure ContatoriProdotto where
  fl01 : ℕ := 0
  pn03 : ℕ := 0
  in07 : ℕ := 0
  rd01 : ℕ := 0
deriving DecidableEq, Repr

def ContatoriProdotto.get (c : ContatoriProdotto) : TipoProdotto → ℕ
  | .FL_01 => c.fl01
  | .PN_03 => c.pn03
  | .IN_07 => c.in07
  | .RD_01 => c.rd01

def ContatoriProdotto.set (c : ContatoriProdotto) (p : TipoProdotto) (n : ℕ) : ContatoriProdotto :=
  match p with
  | .FL_01 => { c with fl01 := n }
  | .PN_03 => { c with pn03 := n }
  | .IN_07 => { c with in07 := n }
  | .RD_01 => { c with rd01 := n }

/-- The daily-cap bookkeeping of SistemaProduttivo. -/
structure StatoGiornaliero where
  giorno_corrente : ℤ := 0
  produzione_giornaliera_per_prodotto : ContatoriProdotto := {}
  produzione_giornaliera_totale : ℕ := 0
deriving DecidableEq, Repr

/-- The whole mutable state of a run: virtual clock, the threaded rng,
the resource parks, the finished-goods stores, the two intermediate
component stores (the magazzino_intermedio dict has exactly the keys
FL-01 and IN-07, simulazione_core.py lines 420-423) and the daily-cap
counters. -/
structure Sistema where
  now : ℚ
  rng : Rng
  macchine : ParcoMacchine
  operatori : ParcoOperatori
  buffer_scorte : Scorte := {}
  mag_fl01 : List OrdineDiLavoro
  mag_in07 : List OrdineDiLavoro
  contatori : StatoGiornaliero := {}
deriving DecidableEq, Repr

/--
The setup block of SistemaProduttivo.esegui_operazione
(simulazione_core.py lines 535-547), executed while the machine is
held: if the last-processed product exists and differs from the current
product and the configured setup time is positive, the clock advances
by exactly tempo_setup_minuti through a plain `ambiente.timeout` (not
through the shift-aware avanza_tempo_lavorativo), setup usage is
recorded and a setup event is appended; the ultimo_prodotto marker is
then updated in every case.  Returns the updated machine state and
clock.
-/
def setupStep (cfg : ConfigurazioneSimulazione) (prodotto : TipoProdotto)
    (macchina : StatoMacchina) (now : ℚ) : StatoMacchina × ℚ :=
  let dopo :=
    match macchina.ultimo_prodotto with
    | some ultimo =>
      if ultimo ≠ prodotto then
        let tempo_setup := cfg.tempo_setup_minuti
        if 0 < tempo_setup then
          let now' := now + tempo_setup
          let mac' := registra_tempo_utilizzo macchina tempo_setup .setup
          let mac'' := { mac' with log_eventi := mac'.log_eventi ++
            [({ tipo := "setup", inizio := now' - tempo_setup, fine := now',
                descrizione := "Setup" } : Evento)] }
          (mac'', now')
        else (macchina, now)
      else (macchina, now)
    | none => (macchina, now)
  ({ dopo.1 with ultimo_prodotto := some prodotto }, dopo.2)

/--
The breakdown block of esegui_operazione (lines 551-566): roll the
breakdown probability from the threaded rng; on trigger draw a repair
time with randint and consume it shift-aware with
avanza_tempo_lavorativo, recording breakdown usage and a breakdown
event.
-/
def guastoStep (fuel : ℕ) (cfg : ConfigurazioneSimulazione)
    (macchina : StatoMacchina) (now : ℚ) (rng : Rng) :
    Option (StatoMacchina × ℚ × Rng) :=
  let u := (rngRandom rng).1
  let rng1 := (rngRandom rng).2
  if u < cfg.probabilita_guasto then
    let tempo_riparazione :=
      (rngRandint cfg.minuti_riparazione_min cfg.minuti_riparazione_max rng1).1
    let rng2 :=
      (rngRandint cfg.minuti_riparazione_min cfg.minuti_riparazione_max rng1).2
    match avanzaTempoLavorativo fuel cfg ((tempo_riparazione : ℚ)) now with
    | none => none
    | some now1 =>
      let mac' := registra_tempo_utilizzo macchina (tempo_riparazione : ℚ) .guasto
      let mac'' := { mac' with log_eventi := mac'.log_eventi ++
        [({ tipo := "guasto", inizio := now1 - (tempo_riparazione : ℚ), fine := now1,
            descrizione := "Guasto" } : Evento)] }
      some (mac'', now1, rng2)
  else
    some (macchina, now, rng1)

/--
The execution block of esegui_operazione (lines 568-596): optional
operator acquisition (with escalation to the specialist when
vincolo_specialista demands it), a further shift wait in the operator
branch, the stochastic effective duration
max(0.001, durata_min * uniform(1 - v, 1 + v)), the timed execution and
the processing-usage bookkeeping on machine (and operator).  Returns
the updated machine, operator pool, the effective duration, the new
clock, the advanced rng and the operator type actually used (as logged
by the source).
-/
def esecuzione (fuel : ℕ) (cfg : ConfigurazioneSimulazione) (durata_min : ℚ)
    (tipo_operatore : Option TipoOperatore) (vincolo_specialista : Bool)
    (macchina : StatoMacchina) (operatori : ParcoOperatori) (now : ℚ) (rng : Rng) :
    Option (StatoMacchina × ParcoOperatori × ℚ × ℚ × Rng × Option TipoOperatore) :=
  match tipo_operatore with
  | some t0 =>
    let t := if vincolo_specialista ∧ t0 ≠ TipoOperatore.specializzato
             then TipoOperatore.specializzato else t0
    match attendiTurnoLoop fuel cfg now with
    | none => none
    | some now1 =>
      let variabilita := cfg.fattore_variabilita_processo
      let u := (rngUniform (1 - variabilita) (1 + variabilita) rng).1
      let rng1 := (rngUniform (1 - variabilita) (1 + variabilita) rng).2
      let durata_effettiva := max (1/1000) (durata_min * u)
      let now2 := now1 + durata_effettiva
      let operatore' := registra_tempo_utilizzo (operatori.get t) durata_effettiva .lavorazione
      let macchina' := registra_tempo_utilizzo macchina durata_effettiva .lavorazione
      some (macchina', operatori.set t operatore', durata_effettiva, now2, rng1, some t)
  | none =>
    let variabilita := cfg.fattore_variabilita_processo
    let u := (rngUniform (1 - variabilita) (1 + variabilita) rng).1
    let rng1 := (rngUniform (1 - variabilita) (1 + variabilita) rng).2
    let durata_effettiva := max (1/1000) (durata_min * u)
    some (registra_tempo_utilizzo macchina durata_effettiva .lavorazione, operatori,
          durata_effettiva, now + durata_effettiva, rng1, none)

/--
SistemaProduttivo.esegui_operazione (simulazione_core.py lines
506-615): wait for the shift, hold the machine (in this serialized
embedding of the cooperative scheduler the grant is immediate; the
priority value computed from the policy orders the simpy queue and is
modelled separately by `priorita`), run the setup block, wait for the
shift again, roll the breakdown, run the execution block, then append
the processing event to the machine log and the phase records to the
work order.
-/
def eseguiOperazione (fuel : ℕ) (cfg : ConfigurazioneSimulazione)
    (nome_macchina : TipoMacchinario) (durata_min : ℚ)
    (tipo_operatore : Option TipoOperatore) (vincolo_specialista : Bool)
    (ordine : OrdineDiLavoro) (sys : Sistema) : Option (OrdineDiLavoro × Sistema) :=
  match attendiTurnoLoop fuel cfg sys.now with
  | none => none
  | some now1 =>
    let mac1 := (setupStep cfg ordine.prodotto.id (sys.macchine.get nome_macchina) now1).1
    let now2 := (setupStep cfg ordine.prodotto.id (sys.macchine.get nome_macchina) now1).2
    match attendiTurnoLoop fuel cfg now2 with
    | none => none
    | some now3 =>
      match guastoStep fuel cfg mac1 now3 sys.rng with
      | none => none
      | some (mac2, now4, rng2) =>
        match esecuzione fuel cfg durata_min tipo_operatore vincolo_specialista
            mac2 sys.operatori now4 rng2 with
        | none => none
        | some (mac3, ops3, durata_effettiva, now5, rng3, tipoOpUsato) =>
          let mac4 := { mac3 with log_eventi := mac3.log_eventi ++
            [({ tipo := "lavorazione", inizio := now5 - durata_effettiva, fine := now5,
                ordine := some ordine.id,
                descrizione := "Lavorazione " ++ ordine.id } : Evento)] }
          let ordine' := { ordine with
            cronologia_fasi := ordine.cronologia_fasi ++ [nome_macchina],
            log_lavorazioni := ordine.log_lavorazioni ++
              [({ fase := nome_macchina, durata := durata_effettiva,
                  operatore := tipoOpUsato,
                  inizio := now5 - durata_effettiva, fine := now5 } : LogLavorazione)] }
          some (ordine', { sys with
            now := now5, rng := rng3,
            macchine := sys.macchine.set nome_macchina mac4,
            operatori := ops3 })

/--
The priority computation of esegui_operazione (simulazione_core.py
lines 520-530): FIFO keeps the initial 0; SPT truncates the base
duration with int(); EDD truncates the due time with int() when the
due time is truthy (nonzero) and keeps 0 otherwise.  The value is
passed to richiedi_accesso for the machine and, unchanged, for the
operator; the simpy PriorityResource grants lower values first.
-/
def priorita (politica : PoliticaSchedulazione) (ordine : OrdineDiLavoro)
    (durata_min : ℚ) : ℤ :=
  match politica with
  | .FIFO => 0
  | .SPT => pyint durata_min
  | .EDD => if ordine.scadenza ≠ 0 then pyint ordine.scadenza else 0

/--
The component-withdrawal prologue of StrategiaRD01.esegui_processo
(simulazione_core.py lines 370-386): one blocking get on the FL-01
intermediate store, then two blocking gets on the IN-07 intermediate
store, each withdrawn order being appended to componenti_consumati.
The hardcoded withdrawal sequence is [FL-01, IN-07, IN-07]; the
configured distinta_base is not consulted.  A `none` result is the
process suspended on a get against a store with insufficient stock
(there is no timeout; note that in the source the gets are sequential,
so the orders delivered by the gets that did succeed are already held
when the process blocks).
-/
def prelievoRD01 (ordine : OrdineDiLavoro) (sys : Sistema) :
    Option (OrdineDiLavoro × Sistema) :=
  match sys.mag_fl01, sys.mag_in07 with
  | comp_fl :: resto_fl, comp_in_1 :: comp_in_2 :: resto_in =>
    some ({ ordine with componenti_consumati := ordine.componenti_consumati ++
              [comp_fl.id, comp_in_1.id, comp_in_2.id] },
          { sys with mag_fl01 := resto_fl, mag_in07 := resto_in })
  | _, _ => none

/-- The sequence of intermediate-store gets issued by
StrategiaRD01.esegui_processo, as product codes, in order. -/
def prelieviRD01 : List TipoProdotto := [.FL_01, .IN_07, .IN_07]

/--
StrategiaProcessoBase._gestisci_rilavorazione (lines 268-275): roll the
rework probability; on trigger, reroute through rectification and final
inspection with the processing times configured for the product of the
order.
-/
def gestisciRilavorazione (fuel : ℕ) (cfg : ConfigurazioneSimulazione)
    (ordine : OrdineDiLavoro) (sys : Sistema) : Option (OrdineDiLavoro × Sistema) :=
  let u := (rngRandom sys.rng).1
  let sys1 := { sys with rng := (rngRandom sys.rng).2 }
  if u < cfg.probabilita_rifacimento then
    match eseguiOperazione fuel cfg .rettifica
        (cfg.tempi_lavorazione .rettifica ordine.prodotto.id)
        (some .generico) false ordine sys1 with
    | none => none
    | some (o1, s1) =>
      eseguiOperazione fuel cfg .bancoControllo
        (cfg.tempi_lavorazione .bancoControllo o1.prodotto.id)
        (some .generico) false o1 s1
  else
    some (ordine, sys1)

/--
StrategiaFL01.esegui_processo (lines 279-297): cutting, drilling and
two consecutive control-bench operations, then deposit into the FL-01
finished-goods store and the FL-01 intermediate store and stamp the
completion time.  The source stamps the completion after the puts on
the same object with no simulated time in between; values here are
stamped first so the stored copy carries the final timestamp.
-/
def eseguiProcessoFL01 (fuel : ℕ) (cfg : ConfigurazioneSimulazione)
    (ordine : OrdineDiLavoro) (sys : Sistema) : Option (OrdineDiLavoro × Sistema) :=
  let t := cfg.tempi_lavorazione
  match eseguiOperazione fuel cfg .troncatrice (t .troncatrice .FL_01) (some .generico) false ordine sys with
  | none => none
  | some (o1, s1) =>
  match eseguiOperazione fuel cfg .trapano (t .trapano .FL_01) (some .generico) false o1 s1 with
  | none => none
  | some (o2, s2) =>
  match eseguiOperazione fuel cfg .bancoControllo (t .bancoControllo .FL_01) (some .generico) false o2 s2 with
  | none => none
  | some (o3, s3) =>
  match eseguiOperazione fuel cfg .bancoControllo (t .bancoControllo .FL_01) (some .generico) false o3 s3 with
  | none => none
  | some (o4, s4) =>
    let o5 := { o4 with tempo_completamento := some s4.now }
    some (o5, { s4 with
      buffer_scorte := s4.buffer_scorte.put .FL_01 o5,
      mag_fl01 := s4.mag_fl01 ++ [o5] })

/--
StrategiaPN03.esegui_processo (lines 305-326): cutting, turning (with
the specialist constraint when configured), grinding, control bench,
two independent rework rolls, deposit into the PN-03 finished-goods
store (no intermediate store for PN-03) and completion stamp.
-/
def eseguiProcessoPN03 (fuel : ℕ) (cfg : ConfigurazioneSimulazione)
    (ordine : OrdineDiLavoro) (sys : Sistema) : Option (OrdineDiLavoro × Sistema) :=
  let t := cfg.tempi_lavorazione
  match eseguiOperazione fuel cfg .troncatrice (t .troncatrice .PN_03) (some .generico) false ordine sys with
  | none => none
  | some (o1, s1) =>
  let richiede := cfg.richiede_specialista
  let tipo_op := if richiede then TipoOperatore.specializzato else TipoOperatore.generico
  match eseguiOperazione fuel cfg .tornio (t .tornio .PN_03) (some tipo_op) richiede o1 s1 with
  | none => none
  | some (o2, s2) =>
  match eseguiOperazione fuel cfg .rettifica (t .rettifica .PN_03) (some .generico) false o2 s2 with
  | none => none
  | some (o3, s3) =>
  match eseguiOperazione fuel cfg .bancoControllo (t .bancoControllo .PN_03) (some .generico) false o3 s3 with
  | none => none
  | some (o4, s4) =>
  match gestisciRilavorazione fuel cfg o4 s4 with
  | none => none
  | some (o5, s5) =>
  match gestisciRilavorazione fuel cfg o5 s5 with
  | none => none
  | some (o6, s6) =>
    let o7 := { o6 with tempo_completamento := some s6.now }
    some (o7, { s6 with buffer_scorte := s6.buffer_scorte.put .PN_03 o7 })

/--
StrategiaIN07.esegui_processo (lines 334-359): cutting, milling (with
the specialist constraint when configured), grinding, furnace, control
bench, two independent rework rolls, deposit into the IN-07
finished-goods store and the IN-07 intermediate store, completion
stamp.
-/
def eseguiProcessoIN07 (fuel : ℕ) (cfg : ConfigurazioneSimulazione)
    (ordine : OrdineDiLavoro) (sys : Sistema) : Option (OrdineDiLavoro × Sistema) :=
  let t := cfg.tempi_lavorazione
  match eseguiOperazione fuel cfg .troncatrice (t .troncatrice .IN_07) (some .generico) false ordine sys with
  | none => none
  | some (o1, s1) =>
  let richiede := cfg.richiede_specialista
  let tipo_op := if richiede then TipoOperatore.specializzato else TipoOperatore.generico
  match eseguiOperazione fuel cfg .fresa (t .fresa .IN_07) (some tipo_op) richiede o1 s1 with
  | none => none
  | some (o2, s2) =>
  match eseguiOperazione fuel cfg .rettifica (t .rettifica .IN_07) (some .generico) false o2 s2 with
  | none => none
  | some (o3, s3) =>
  match eseguiOperazione fuel cfg .forno (t .forno .IN_07) (some .generico) false o3 s3 with
  | none => none
  | some (o4, s4) =>
  match eseguiOperazione fuel cfg .bancoControllo (t .bancoControllo .IN_07) (some .generico) false o4 s4 with
  | none => none
  | some (o5, s5) =>
  match gestisciRilavorazione fuel cfg o5 s5 with
  | none => none
  | some (o6, s6) =>
  match gestisciRilavorazione fuel cfg o6 s6 with
  | none => none
  | some (o7, s7) =>
    let o8 := { o7 with tempo_completamento := some s7.now }
    some (o8, { s7 with
      buffer_scorte := s7.buffer_scorte.put .IN_07 o8,
      mag_in07 := s7.mag_in07 ++ [o8] })

/--
StrategiaRD01.esegui_processo (lines 367-392): component withdrawal
from the intermediate stores, then assembly bench and test bench, then
completion stamp (no store deposit for RD-01).
-/
def eseguiProcessoRD01 (fuel : ℕ) (cfg : ConfigurazioneSimulazione)
    (ordine : OrdineDiLavoro) (sys : Sistema) : Option (OrdineDiLavoro × Sistema) :=
  let t := cfg.tempi_lavorazione
  match prelievoRD01 ordine sys with
  | none => none
  | some (o0, s0) =>
  match eseguiOperazione fuel cfg .bancoAssemblaggio (t .bancoAssemblaggio .RD_01) (some .generico) false o0 s0 with
  | none => none
  | some (o1, s1) =>
  match eseguiOperazione fuel cfg .bancoCollaudo (t .bancoCollaudo .RD_01) (some .generico) false o1 s1 with
  | none => none
  | some (o2, s2) =>
    let o3 := { o2 with tempo_completamento := some s2.now }
    some (o3, s2)

/-- The four routing strategies (the Strategy subclasses of
simulazione_core.py). -/
inductive Strategia where
  | FL01
  | PN03
  | IN07
  | RD01
deriving DecidableEq, Repr

/-- Dynamic dispatch of esegui_processo over the strategies. -/
def eseguiProcesso (s : Strategia) (fuel : ℕ) (cfg : ConfigurazioneSimulazione)
    (ordine : OrdineDiLavoro) (sys : Sistema) : Option (OrdineDiLavoro × Sistema) :=
  match s with
  | .FL01 => eseguiProcessoFL01 fuel cfg ordine sys
  | .PN03 => eseguiProcessoPN03 fuel cfg ordine sys
  | .IN07 => eseguiProcessoIN07 fuel cfg ordine sys
  | .RD01 => eseguiProcessoRD01 fuel cfg ordine sys

/-- The stima_tempo_ciclo estimators, transcribed per strategy
(simulazione_core.py lines 299-301, 328-330, 361-363, 394-396). -/
def stima_tempo_ciclo (s : Strategia) (cfg : ConfigurazioneSimulazione) : ℚ :=
  let tempi := cfg.tempi_lavorazione
  match s with
  | .FL01 => tempi .troncatrice .FL_01 + tempi .trapano .FL_01 + tempi .bancoControllo .FL_01
  | .PN03 => tempi .troncatrice .PN_03 + tempi .tornio .PN_03 + tempi .rettifica .PN_03
      + tempi .bancoControllo .PN_03
  | .IN07 => tempi .troncatrice .IN_07 + tempi .fresa .IN_07 + tempi .rettifica .IN_07
      + tempi .forno .IN_07 + tempi .bancoControllo .IN_07
  | .RD01 => tempi .bancoAssemblaggio .RD_01 + tempi .bancoCollaudo .RD_01

/-- The machine operations (machine, product) that each strategy's main
sequence actually executes, in order, rework sub-protocol excluded
(read off the esegui_processo bodies; note the control bench appears
twice in StrategiaFL01, lines 283 and 285). -/
def opsPrincipali : Strategia → List (TipoMacchinario × TipoProdotto)
  | .FL01 => [(.troncatrice, .FL_01), (.trapano, .FL_01),
              (.bancoControllo, .FL_01), (.bancoControllo, .FL_01)]
  | .PN03 => [(.troncatrice, .PN_03), (.tornio, .PN_03),
              (.rettifica, .PN_03), (.bancoControllo, .PN_03)]
  | .IN07 => [(.troncatrice, .IN_07), (.fresa, .IN_07), (.rettifica, .IN_07),
              (.forno, .IN_07), (.bancoControllo, .IN_07)]
  | .RD01 => [(.bancoAssemblaggio, .RD_01), (.bancoCollaudo, .RD_01)]

/-- Total base duration of a list of operations under a configuration. -/
def sommaDurate (cfg : ConfigurazioneSimulazione) :
    List (TipoMacchinario × TipoProdotto) → ℚ
  | [] => 0
  | op :: resto => cfg.tempi_lavorazione op.1 op.2 + sommaDurate cfg resto

/-- The day-change reset at the top of the daily-cap loop
(simulazione_core.py lines 631-636): when a later simulated day is
detected, record it and clear both daily counters. -/
def resetGiorno (giorno_simulazione : ℤ) (st : StatoGiornaliero) : StatoGiornaliero :=
  if st.giorno_corrente < giorno_simulazione then
    { giorno_corrente := giorno_simulazione,
      produzione_giornaliera_per_prodotto := {},
      produzione_giornaliera_totale := 0 }
  else st

/-- The cap test of the daily-cap loop (lines 638-648): the per-product
cap defaults to infinity when missing (dict.get(id, inf)), as does the
global cap when None. -/
def capRaggiunto (cfg : ConfigurazioneSimulazione) (id_prodotto : TipoProdotto)
    (st : StatoGiornaliero) : Bool :=
  let limite_prodotto : Option ℕ :=
    match cfg.limiti_produzione_giornaliera with
    | none => none
    | some limiti => limiti id_prodotto
  let prodotti_oggi := st.produzione_giornaliera_per_prodotto.get id_prodotto
  let capProdotto : Bool :=
    match limite_prodotto with
    | some l => decide (l ≤ prodotti_oggi)
    | none => false
  let capTotale : Bool :=
    match cfg.limite_produzione_totale_giornaliera with
    | some l => decide (l ≤ st.produzione_giornaliera_totale)
    | none => false
  capProdotto || capTotale

/-- The reservation step (lines 660-661): increment the per-product
counter and the global counter. -/
def incrementaContatori (id_prodotto : TipoProdotto) (st : StatoGiornaliero) :
    StatoGiornaliero :=
  { st with
    produzione_giornaliera_per_prodotto :=
      st.produzione_giornaliera_per_prodotto.set id_prodotto
        (st.produzione_giornaliera_per_prodotto.get id_prodotto + 1),
    produzione_giornaliera_totale := st.produzione_giornaliera_totale + 1 }

/-- Outcome of one iteration of the daily-cap loop. -/
inductive EsitoGate where
  | attendi (risveglio : ℚ) (st : StatoGiornaliero)
  | procedi (st : StatoGiornaliero)
deriving DecidableEq, Repr

/--
One iteration of the daily-cap gate of SistemaProduttivo.elabora_ordine
(simulazione_core.py lines 630-662): compute the simulated day with
int(now / 1440), reset the counters if a later day is detected, then
either wait (timeout until minutes-to-midnight plus the shift-opening
offset have elapsed) when a cap is met, or reserve capacity by
incrementing both counters and proceed.  The check and the increments
are a single step with no suspension point in between (the source has
no yield between them).
-/
def gateStep (cfg : ConfigurazioneSimulazione) (id_prodotto : TipoProdotto)
    (now : ℚ) (st : StatoGiornaliero) : EsitoGate :=
  let giorno_simulazione := pyint (now / (MINUTI_GIORNALIERI : ℚ))
  let st1 := resetGiorno giorno_simulazione st
  if capRaggiunto cfg id_prodotto st1 then
    let minuti_giornalieri := pymod now (MINUTI_GIORNALIERI : ℚ)
    let tempo_fine_giornata := ((MINUTI_GIORNALIERI : ℤ) : ℚ) - minuti_giornalieri
    let tempo_apertura_domani := ((cfg.orario_inizio_turno * 60 : ℤ) : ℚ)
    let tempo_attesa := tempo_fine_giornata + tempo_apertura_domani
    .attendi (now + tempo_attesa) st1
  else
    .procedi (incrementaContatori id_prodotto st1)

/-- The daily-cap while-loop, with fuel: wait and re-check until the
reservation succeeds. -/
def gateLoop : ℕ → ConfigurazioneSimulazione → TipoProdotto → Sistema → Option Sistema
  | 0, _, _, _ => none
  | fuel + 1, cfg, id_prodotto, sys =>
    match gateStep cfg id_prodotto sys.now sys.contatori with
    | .attendi risveglio st1 =>
      gateLoop fuel cfg id_prodotto { sys with now := risveglio, contatori := st1 }
    | .procedi st1 => some { sys with contatori := st1 }

/-- The strategie dict wired in main.py lines 252-257: each product id
is routed to its strategy. -/
def strategiaPerProdotto : TipoProdotto → Strategia
  | .FL_01 => .FL01
  | .PN_03 => .PN03
  | .IN_07 => .IN07
  | .RD_01 => .RD01

/--
SistemaProduttivo.elabora_ordine (simulazione_core.py lines 617-668):
the daily-cap gate runs only when at least one cap is configured; the
order is then dispatched to the strategy registered for its product.
-/
def elaboraOrdine (fuel : ℕ) (cfg : ConfigurazioneSimulazione)
    (ordine : OrdineDiLavoro) (sys : Sistema) : Option (OrdineDiLavoro × Sistema) :=
  let has_limits := cfg.limiti_produzione_giornaliera.isSome
      || cfg.limite_produzione_totale_giornaliera.isSome
  match (if has_limits then gateLoop fuel cfg ordine.prodotto.id sys else some sys) with
  | none => none
  | some sys1 => eseguiProcesso (strategiaPerProdotto ordine.prodotto.id) fuel cfg ordine sys1

/-- The synthetic stock orders pre-seeded into the intermediate
warehouse at construction (simulazione_core.py lines 430-441):
identifier STOCK-INIT-code-i, creation, due and completion time all
0.0. -/
def ordineStock (tipo_prod : TipoProdotto) (i : ℕ) : OrdineDiLavoro :=
  { id := "STOCK-INIT-" ++ tipo_prod.value ++ "-" ++ toString i,
    prodotto := { id := tipo_prod, nome := tipo_prod.value },
    tempo_creazione := 0,
    scadenza := 0,
    tempo_completamento := some 0 }

/-- The initial-stock quantities (lines 425-428): 20 FL-01 and
40 IN-07. -/
def quantitaIniziali (tipo_prod : TipoProdotto) : ℕ :=
  match tipo_prod with
  | .FL_01 => 20
  | .IN_07 => 40
  | _ => 0

/-- The initial content of one intermediate store. -/
def stockIniziale (tipo_prod : TipoProdotto) : List OrdineDiLavoro :=
  (List.range (quantitaIniziali tipo_prod)).map (ordineStock tipo_prod)

/-- A fresh machine as built by _inizializza_asset: capacity from the
configuration (caps.get defaults to 1 for a missing entry; both
configuration builders of the source populate every entry). -/
def macchinaIniziale (cfg : ConfigurazioneSimulazione) (m : TipoMacchinario) : StatoMacchina :=
  { capacita := cfg.capacita_macchine m }

def operatoreIniziale (cfg : ConfigurazioneSimulazione) (t : TipoOperatore) : StatoMacchina :=
  { capacita := cfg.capacita_operatori t }

/-- SistemaProduttivo.__init__ (lines 403-451) composed with the engine
construction MotoreSimulazione.__init__ (lines 236-245): clock at 0,
the generator seeded from seme_casuale, fresh resources, empty
finished-goods stores, the pre-seeded intermediate stores and zeroed
daily counters. -/
def sistemaIniziale (cfg : ConfigurazioneSimulazione) (seme : ℕ) : Sistema :=
  { now := 0,
    rng := mkRng seme,
    macchine :=
      { troncatrice := macchinaIniziale cfg .troncatrice,
        trapano := macchinaIniziale cfg .trapano,
        tornio := macchinaIniziale cfg .tornio,
        fresa := macchinaIniziale cfg .fresa,
        rettifica := macchinaIniziale cfg .rettifica,
        forno := macchinaIniziale cfg .forno,
        bancoAssemblaggio := macchinaIniziale cfg .bancoAssemblaggio,
        bancoCollaudo := macchinaIniziale cfg .bancoCollaudo,
        bancoControllo := macchinaIniziale cfg .bancoControllo },
    operatori :=
      { generico := operatoreIniziale cfg .generico,
        specializzato := operatoreIniziale cfg .specializzato },
    mag_fl01 := stockIniziale .FL_01,
    mag_in07 := stockIniziale .IN_07 }

/-- Dispatch a list of work orders through elabora_ordine, threading
the system state (the cooperative schedule collapsed to the arrival
order of the dispatched orders). -/
def eseguiOrdini (fuel : ℕ) (cfg : ConfigurazioneSimulazione) :
    List OrdineDiLavoro → Sistema → Option Sistema
  | [], sys => some sys
  | ordine :: resto, sys =>
    match elaboraOrdine fuel cfg ordine sys with
    | none => none
    | some (_, sys1) => eseguiOrdini fuel cfg resto sys1

/-- A whole run: construct the system from (seed, configuration) and
dispatch the input orders in their given order. -/
def simRun (seme : ℕ) (cfg : ConfigurazioneSimulazione)
    (ordini : List OrdineDiLavoro) (fuel : ℕ) : Option Sistema :=
  eseguiOrdini fuel cfg ordini (sistemaIniziale cfg seme)

/-- The per-resource event logs of a run, in the fixed resource order
of the machine park. -/
def logsEventi (sys : Sistema) : List (List Evento) :=
  [sys.macchine.troncatrice.log_eventi,
   sys.macchine.trapano.log_eventi,
   sys.macchine.tornio.log_eventi,
   sys.macchine.fresa.log_eventi,
   sys.macchine.rettifica.log_eventi,
   sys.macchine.forno.log_eventi,
   sys.macchine.bancoAssemblaggio.log_eventi,
   sys.macchine.bancoCollaudo.log_eventi,
   sys.macchine.bancoControllo.log_eventi]

theorem setupStep_le (cfg : ConfigurazioneSimulazione) (p : TipoProdotto)
    (mac : StatoMacchina) (now : ℚ) : now ≤ (setupStep cfg p mac now).2 := by
  unfold setupStep
  cases mac.ultimo_prodotto with
  | none => simp
  | some ultimo =>
    simp only
    split
    · split
      · rename_i hts
        simp only
        linarith
      · simp
    · simp

theorem guastoStep_le (fuel : ℕ) (cfg : ConfigurazioneSimulazione)
    (mac : StatoMacchina) (now : ℚ) (rng : Rng)
    (out : StatoMacchina × ℚ × Rng)
    (h : guastoStep fuel cfg mac now rng = some out) : now ≤ out.2.1 := by
  unfold guastoStep at h
  simp only at h
  split at h
  · cases h1 : avanzaTempoLavorativo fuel cfg
        (((rngRandint cfg.minuti_riparazione_min cfg.minuti_riparazione_max
          (rngRandom rng).2).1 : ℤ) : ℚ) now with
    | none => rw [h1] at h; simp at h
    | some now1 =>
      rw [h1] at h
      simp only [Option.some.injEq] at h
      have := avanzaTempoLavorativo_le fuel cfg _ now now1 h1
      rw [← h]
      exact this
  · simp only [Option.some.injEq] at h
    rw [← h]

theorem esecuzione_lt (fuel : ℕ) (cfg : ConfigurazioneSimulazione) (durata_min : ℚ)
    (tipo_operatore : Option TipoOperatore) (vincolo : Bool)
    (mac : StatoMacchina) (ops : ParcoOperatori) (now : ℚ) (rng : Rng)
    (out : StatoMacchina × ParcoOperatori × ℚ × ℚ × Rng × Option TipoOperatore)
    (h : esecuzione fuel cfg durata_min tipo_operatore vincolo mac ops now rng = some out) :
    now < out.2.2.2.1 := by
  unfold esecuzione at h
  cases tipo_operatore with
  | none =>
    simp only [Option.some.injEq] at h
    rw [← h]
    simp only
    have := le_max_left (1/1000 : ℚ)
      (durata_min * (rngUniform (1 - cfg.fattore_variabilita_processo)
        (1 + cfg.fattore_variabilita_processo) rng).1)
    linarith
  | some t0 =>
    simp only at h
    cases h1 : attendiTurnoLoop fuel cfg now with
    | none => rw [h1] at h; simp at h
    | some now1 =>
      rw [h1] at h
      simp only [Option.some.injEq] at h
      have hle := attendiTurnoLoop_le fuel cfg now now1 h1
      rw [← h]
      simp only
      have := le_max_left (1/1000 : ℚ)
        (durata_min * (rngUniform (1 - cfg.fattore_variabilita_processo)
          (1 + cfg.fattore_variabilita_processo) rng).1)
      linarith

theorem eseguiOperazione_some (fuel : ℕ) (cfg : ConfigurazioneSimulazione)
    (nome_macchina : TipoMacchinario) (durata_min : ℚ)
    (tipo_operatore : Option TipoOperatore) (vincolo : Bool)
    (ordine : OrdineDiLavoro) (sys : Sistema) (esito : OrdineDiLavoro × Sistema)
    (h : eseguiOperazione fuel cfg nome_macchina durata_min tipo_operatore vincolo ordine sys
         = some esito) :
    sys.now < esito.2.now
    ∧ esito.1.tempo_creazione = ordine.tempo_creazione
    ∧ esito.1.tempo_completamento = ordine.tempo_completamento
    ∧ esito.1.prodotto = ordine.prodotto
    ∧ esito.1.id = ordine.id
    ∧ esito.1.cronologia_fasi = ordine.cronologia_fasi ++ [nome_macchina]
    ∧ esito.2.mag_fl01 = sys.mag_fl01
    ∧ esito.2.mag_in07 = sys.mag_in07 := by
  unfold eseguiOperazione at h
  cases h1 : attendiTurnoLoop fuel cfg sys.now with
  | none => rw [h1] at h; simp at h
  | some now1 =>
    rw [h1] at h
    simp only at h
    cases h2 : attendiTurnoLoop fuel cfg
        (setupStep cfg ordine.prodotto.id (sys.macchine.get nome_macchina) now1).2 with
    | none => rw [h2] at h; simp at h
    | some now3 =>
      rw [h2] at h
      simp only at h
      cases h3 : guastoStep fuel cfg
          (setupStep cfg ordine.prodotto.id (sys.macchine.get nome_macchina) now1).1
          now3 sys.rng with
      | none => rw [h3] at h; simp at h
      | some trio =>
        rw [h3] at h
        simp only at h
        cases h4 : esecuzione fuel cfg durata_min tipo_operatore vincolo
            trio.1 sys.operatori trio.2.1 trio.2.2 with
        | none => rw [h4] at h; simp at h
        | some out =>
          rw [h4] at h
          simp only [Option.some.injEq] at h
          have hA := attendiTurnoLoop_le fuel cfg sys.now now1 h1
          have hS := setupStep_le cfg ordine.prodotto.id (sys.macchine.get nome_macchina) now1
          have hB := attendiTurnoLoop_le fuel cfg _ now3 h2
          have hG := guastoStep_le fuel cfg _ now3 sys.rng trio h3
          have hE := esecuzione_lt fuel cfg durata_min tipo_operatore vincolo
            trio.1 sys.operatori trio.2.1 trio.2.2 out h4
          rw [← h]
          refine ⟨by simp only; linarith, rfl, rfl, rfl, rfl, rfl, rfl, rfl⟩

theorem gestisciRilavorazione_some (fuel : ℕ) (cfg : ConfigurazioneSimulazione)
    (ordine : OrdineDiLavoro) (sys : Sistema) (esito : OrdineDiLavoro × Sistema)
    (h : gestisciRilavorazione fuel cfg ordine sys = some esito) :
    sys.now ≤ esito.2.now
    ∧ esito.1.tempo_creazione = ordine.tempo_creazione
    ∧ esito.1.tempo_completamento = ordine.tempo_completamento
    ∧ esito.1.prodotto = ordine.prodotto := by
  unfold gestisciRilavorazione at h
  simp only at h
  split at h
  · cases h1 : eseguiOperazione fuel cfg .rettifica
        (cfg.tempi_lavorazione .rettifica ordine.prodotto.id)
        (some .generico) false ordine { sys with rng := (rngRandom sys.rng).2 } with
    | none => rw [h1] at h; simp at h
    | some r1 =>
      rw [h1] at h
      have e1 := eseguiOperazione_some _ _ _ _ _ _ _ _ _ h1
      have e2 := eseguiOperazione_some _ _ _ _ _ _ _ _ _ h
      obtain ⟨l1, c1, t1, p1, _, _, _, _⟩ := e1
      obtain ⟨l2, c2, t2, p2, _, _, _, _⟩ := e2
      exact ⟨by simp only at l1; linarith, by rw [c2, c1], by rw [t2, t1], by rw [p2, p1]⟩
  · simp only [Option.some.injEq] at h
    rw [← h]
    exact ⟨le_refl _, rfl, rfl, rfl⟩

theorem prelievoRD01_some (ordine : OrdineDiLavoro) (sys : Sistema)
    (esito : OrdineDiLavoro × Sistema)
    (h : prelievoRD01 ordine sys = some esito) :
    esito.2.now = sys.now
    ∧ esito.1.tempo_creazione = ordine.tempo_creazione
    ∧ esito.1.tempo_completamento = ordine.tempo_completamento
    ∧ esito.1.prodotto = ordine.prodotto
    ∧ esito.2.mag_fl01.length + 1 = sys.mag_fl01.length
    ∧ esito.2.mag_in07.length + 2 = sys.mag_in07.length
    ∧ esito.1.componenti_consumati = ordine.componenti_consumati ++
        ((sys.mag_fl01.take 1 ++ sys.mag_in07.take 2).map OrdineDiLavoro.id) := by
  unfold prelievoRD01 at h
  split at h
  · rename_i comp_fl resto_fl comp_in_1 comp_in_2 resto_in hfl hin
    simp only [Option.some.injEq] at h
    rw [← h]
    refine ⟨rfl, rfl, rfl, rfl, ?_, ?_, ?_⟩
    · rw [hfl]; simp
    · rw [hin]; simp
    · rw [hfl, hin]; simp
  · simp at h

theorem eseguiProcessoFL01_some (fuel : ℕ) (cfg : ConfigurazioneSimulazione)
    (ordine : OrdineDiLavoro) (sys : Sistema) (esito : OrdineDiLavoro × Sistema)
    (h : eseguiProcessoFL01 fuel cfg ordine sys = some esito) :
    sys.now < esito.2.now
    ∧ esito.1.tempo_completamento = some esito.2.now
    ∧ esito.1.tempo_creazione = ordine.tempo_creazione
    ∧ esito.1.cronologia_fasi = ordine.cronologia_fasi ++
        (opsPrincipali .FL01).map Prod.fst := by
  unfold eseguiProcessoFL01 at h
  simp only at h
  cases h1 : eseguiOperazione fuel cfg .troncatrice
      (cfg.tempi_lavorazione .troncatrice .FL_01) (some .generico) false ordine sys with
  | none => rw [h1] at h; simp at h
  | some r1 =>
    obtain ⟨o1, s1⟩ := r1
    rw [h1] at h
    simp only at h
    cases h2 : eseguiOperazione fuel cfg .trapano
        (cfg.tempi_lavorazione .trapano .FL_01) (some .generico) false o1 s1 with
    | none => rw [h2] at h; simp at h
    | some r2 =>
      obtain ⟨o2, s2⟩ := r2
      rw [h2] at h
      simp only at h
      cases h3 : eseguiOperazione fuel cfg .bancoControllo
          (cfg.tempi_lavorazione .bancoControllo .FL_01) (some .generico) false o2 s2 with
      | none => rw [h3] at h; simp at h
      | some r3 =>
        obtain ⟨o3, s3⟩ := r3
        rw [h3] at h
        simp only at h
        cases h4 : eseguiOperazione fuel cfg .bancoControllo
            (cfg.tempi_lavorazione .bancoControllo .FL_01) (some .generico) false o3 s3 with
        | none => rw [h4] at h; simp at h
        | some r4 =>
          obtain ⟨o4, s4⟩ := r4
          rw [h4] at h
          simp only [Option.some.injEq] at h
          obtain ⟨t1, c1, -, -, -, f1, -, -⟩ := eseguiOperazione_some _ _ _ _ _ _ _ _ _ h1
          obtain ⟨t2, c2, -, -, -, f2, -, -⟩ := eseguiOperazione_some _ _ _ _ _ _ _ _ _ h2
          obtain ⟨t3, c3, -, -, -, f3, -, -⟩ := eseguiOperazione_some _ _ _ _ _ _ _ _ _ h3
          obtain ⟨t4, c4, -, -, -, f4, -, -⟩ := eseguiOperazione_some _ _ _ _ _ _ _ _ _ h4
          rw [← h]
          refine ⟨by simp only; linarith, rfl, by simp only; rw [c4, c3, c2, c1], ?_⟩
          simp only [opsPrincipali, List.map]
          rw [f4, f3, f2, f1]
          simp

theorem eseguiProcessoPN03_some (fuel : ℕ) (cfg : ConfigurazioneSimulazione)
    (ordine : OrdineDiLavoro) (sys : Sistema) (esito : OrdineDiLavoro × Sistema)
    (h : eseguiProcessoPN03 fuel cfg ordine sys = some esito) :
    sys.now < esito.2.now
    ∧ esito.1.tempo_completamento = some esito.2.now
    ∧ esito.1.tempo_creazione = ordine.tempo_creazione := by
  unfold eseguiProcessoPN03 at h
  simp only at h
  cases h1 : eseguiOperazione fuel cfg .troncatrice
      (cfg.tempi_lavorazione .troncatrice .PN_03) (some .generico) false ordine sys with
  | none => rw [h1] at h; simp at h
  | some r1 =>
    obtain ⟨o1, s1⟩ := r1
    rw [h1] at h
    simp only at h
    cases h2 : eseguiOperazione fuel cfg .tornio (cfg.tempi_lavorazione .tornio .PN_03)
        (some (if cfg.richiede_specialista then TipoOperatore.specializzato
               else TipoOperatore.generico))
        cfg.richiede_specialista o1 s1 with
    | none => rw [h2] at h; simp at h
    | some r2 =>
      obtain ⟨o2, s2⟩ := r2
      rw [h2] at h
      simp only at h
      cases h3 : eseguiOperazione fuel cfg .rettifica
          (cfg.tempi_lavorazione .rettifica .PN_03) (some .generico) false o2 s2 with
      | none => rw [h3] at h; simp at h
      | some r3 =>
        obtain ⟨o3, s3⟩ := r3
        rw [h3] at h
        simp only at h
        cases h4 : eseguiOperazione fuel cfg .bancoControllo
            (cfg.tempi_lavorazione .bancoControllo .PN_03) (some .generico) false o3 s3 with
        | none => rw [h4] at h; simp at h
        | some r4 =>
          obtain ⟨o4, s4⟩ := r4
          rw [h4] at h
          simp only at h
          cases h5 : gestisciRilavorazione fuel cfg o4 s4 with
          | none => rw [h5] at h; simp at h
          | some r5 =>
            obtain ⟨o5, s5⟩ := r5
            rw [h5] at h
            simp only at h
            cases h6 : gestisciRilavorazione fuel cfg o5 s5 with
            | none => rw [h6] at h; simp at h
            | some r6 =>
              obtain ⟨o6, s6⟩ := r6
              rw [h6] at h
              simp only [Option.some.injEq] at h
              obtain ⟨t1, c1, -, -, -, -, -, -⟩ := eseguiOperazione_some _ _ _ _ _ _ _ _ _ h1
              obtain ⟨t2, c2, -, -, -, -, -, -⟩ := eseguiOperazione_some _ _ _ _ _ _ _ _ _ h2
              obtain ⟨t3, c3, -, -, -, -, -, -⟩ := eseguiOperazione_some _ _ _ _ _ _ _ _ _ h3
              obtain ⟨t4, c4, -, -, -, -, -, -⟩ := eseguiOperazione_some _ _ _ _ _ _ _ _ _ h4
              obtain ⟨t5, c5, -, -⟩ := gestisciRilavorazione_some _ _ _ _ _ h5
              obtain ⟨t6, c6, -, -⟩ := gestisciRilavorazione_some _ _ _ _ _ h6
              rw [← h]
              refine ⟨by simp only; linarith, rfl, ?_⟩
              simp only
              rw [c6, c5, c4, c3, c2, c1]

theorem eseguiProcessoIN07_some (fuel : ℕ) (cfg : ConfigurazioneSimulazione)
    (ordine : OrdineDiLavoro) (sys : Sistema) (esito : OrdineDiLavoro × Sistema)
    (h : eseguiProcessoIN07 fuel cfg ordine sys = some esito) :
    sys.now < esito.2.now
    ∧ esito.1.tempo_completamento = some esito.2.now
    ∧ esito.1.tempo_creazione = ordine.tempo_creazione := by
  unfold eseguiProcessoIN07 at h
  simp only at h
  cases h1 : eseguiOperazione fuel cfg .troncatrice
      (cfg.tempi_lavorazione .troncatrice .IN_07) (some .generico) false ordine sys with
  | none => rw [h1] at h; simp at h
  | some r1 =>
    obtain ⟨o1, s1⟩ := r1
    rw [h1] at h
    simp only at h
    cases h2 : eseguiOperazione fuel cfg .fresa (cfg.tempi_lavorazione .fresa .IN_07)
        (some (if cfg.richiede_specialista then TipoOperatore.specializzato
               else TipoOperatore.generico))
        cfg.richiede_specialista o1 s1 with
    | none => rw [h2] at h; simp at h
    | some r2 =>
      obtain ⟨o2, s2⟩ := r2
      rw [h2] at h
      simp only at h
      cases h3 : eseguiOperazione fuel cfg .rettifica
          (cfg.tempi_lavorazione .rettifica .IN_07) (some .generico) false o2 s2 with
      | none => rw [h3] at h; simp at h
      | some r3 =>
        obtain ⟨o3, s3⟩ := r3
        rw [h3] at h
        simp only at h
        cases h4 : eseguiOperazione fuel cfg .forno
            (cfg.tempi_lavorazione .forno .IN_07) (some .generico) false o3 s3 with
        | none => rw [h4] at h; simp at h
        | some r4 =>
          obtain ⟨o4, s4⟩ := r4
          rw [h4] at h
          simp only at h
          cases h5 : eseguiOperazione fuel cfg .bancoControllo
              (cfg.tempi_lavorazione .bancoControllo .IN_07) (some .generico) false o4 s4 with
          | none => rw [h5] at h; simp at h
          | some r5 =>
            obtain ⟨o5, s5⟩ := r5
            rw [h5] at h
            simp only at h
            cases h6 : gestisciRilavorazione fuel cfg o5 s5 with
            | none => rw [h6] at h; simp at h
            | some r6 =>
              obtain ⟨o6, s6⟩ := r6
              rw [h6] at h
              simp only at h
              cases h7 : gestisciRilavorazione fuel cfg o6 s6 with
              | none => rw [h7] at h; simp at h
              | some r7 =>
                obtain ⟨o7, s7⟩ := r7
                rw [h7] at h
                simp only [Option.some.injEq] at h
                obtain ⟨t1, c1, -, -, -, -, -, -⟩ := eseguiOperazione_some _ _ _ _ _ _ _ _ _ h1
                obtain ⟨t2, c2, -, -, -, -, -, -⟩ := eseguiOperazione_some _ _ _ _ _ _ _ _ _ h2
                obtain ⟨t3, c3, -, -, -, -, -, -⟩ := eseguiOperazione_some _ _ _ _ _ _ _ _ _ h3
                obtain ⟨t4, c4, -, -, -, -, -, -⟩ := eseguiOperazione_some _ _ _ _ _ _ _ _ _ h4
                obtain ⟨t5, c5, -, -, -, -, -, -⟩ := eseguiOperazione_some _ _ _ _ _ _ _ _ _ h5
                obtain ⟨t6, c6, -, -⟩ := gestisciRilavorazione_some _ _ _ _ _ h6
                obtain ⟨t7, c7, -, -⟩ := gestisciRilavorazione_some _ _ _ _ _ h7
                rw [← h]
                refine ⟨by simp only; linarith, rfl, ?_⟩
                simp only
                rw [c7, c6, c5, c4, c3, c2, c1]

theorem eseguiProcessoRD01_some (fuel : ℕ) (cfg : ConfigurazioneSimulazione)
    (ordine : OrdineDiLavoro) (sys : Sistema) (esito : OrdineDiLavoro × Sistema)
    (h : eseguiProcessoRD01 fuel cfg ordine sys = some esito) :
    sys.now < esito.2.now
    ∧ esito.1.tempo_completamento = some esito.2.now
    ∧ esito.1.tempo_creazione = ordine.tempo_creazione := by
  unfold eseguiProcessoRD01 at h
  simp only at h
  cases h0 : prelievoRD01 ordine sys with
  | none => rw [h0] at h; simp at h
  | some r0 =>
    obtain ⟨o0, s0⟩ := r0
    rw [h0] at h
    simp only at h
    cases h1 : eseguiOperazione fuel cfg .bancoAssemblaggio
        (cfg.tempi_lavorazione .bancoAssemblaggio .RD_01) (some .generico) false o0 s0 with
    | none => rw [h1] at h; simp at h
    | some r1 =>
      obtain ⟨o1, s1⟩ := r1
      rw [h1] at h
      simp only at h
      cases h2 : eseguiOperazione fuel cfg .bancoCollaudo
          (cfg.tempi_lavorazione .bancoCollaudo .RD_01) (some .generico) false o1 s1 with
      | none => rw [h2] at h; simp at h
      | some r2 =>
        obtain ⟨o2, s2⟩ := r2
        rw [h2] at h
        simp only [Option.some.injEq] at h
        obtain ⟨tp, cp, -, -, -, -, -⟩ := prelievoRD01_some _ _ _ h0
        obtain ⟨t1, c1, -, -, -, -, -, -⟩ := eseguiOperazione_some _ _ _ _ _ _ _ _ _ h1
        obtain ⟨t2, c2, -, -, -, -, -, -⟩ := eseguiOperazione_some _ _ _ _ _ _ _ _ _ h2
        rw [← h]
        refine ⟨by simp only; linarith, rfl, ?_⟩
        simp only
        rw [c2, c1, cp]

theorem eseguiProcesso_some (s : Strategia) (fuel : ℕ) (cfg : ConfigurazioneSimulazione)
    (ordine : OrdineDiLavoro) (sys : Sistema) (esito : OrdineDiLavoro × Sistema)
    (h : eseguiProcesso s fuel cfg ordine sys = some esito) :
    sys.now < esito.2.now
    ∧ esito.1.tempo_completamento = some esito.2.now
    ∧ esito.1.tempo_creazione = ordine.tempo_creazione := by
  cases s with
  | FL01 =>
    obtain ⟨a, b, c, -⟩ := eseguiProcessoFL01_some fuel cfg ordine sys esito h
    exact ⟨a, b, c⟩
  | PN03 => exact eseguiProcessoPN03_some fuel cfg ordine sys esito h
  | IN07 => exact eseguiProcessoIN07_some fuel cfg ordine sys esito h
  | RD01 => exact eseguiProcessoRD01_some fuel cfg ordine sys esito h

theorem pyint_eq_floor (q : ℚ) (h : 0 ≤ q) : pyint q = ⌊q⌋ := by
  unfold pyint
  rw [if_pos h]

/-- Claim C8: at construction the production system pre-seeds the
intermediate component warehouse with synthetic stock work orders,
exactly 20 units of FL-01 and 40 units of IN-07, each with creation,
due, and completion time 0.0. -/
theorem spec_C8 (cfg : ConfigurazioneSimulazione) (seme : ℕ) :
    (sistemaIniziale cfg seme).mag_fl01.length = 20
    ∧ (sistemaIniziale cfg seme).mag_in07.length = 40
    ∧ ((sistemaIniziale cfg seme).mag_fl01.all fun o =>
        decide (o.prodotto.id = TipoProdotto.FL_01) && decide (o.tempo_creazione = 0)
        && decide (o.scadenza = 0) && decide (o.tempo_completamento = some 0)) = true
    ∧ ((sistemaIniziale cfg seme).mag_in07.all fun o =>
        decide (o.prodotto.id = TipoProdotto.IN_07) && decide (o.tempo_creazione = 0)
        && decide (o.scadenza = 0) && decide (o.tempo_completamento = some 0)) = true := by
  refine ⟨?_, ?_, ?_, ?_⟩ <;> with_unfolding_all rfl

/-- Claim C9: the lead-time accessor tempo_attraversamento returns none
whenever tempo_completamento is the falsy value 0.0, even though the
completion time has been set. -/
theorem spec_C9 (o : OrdineDiLavoro) (h : o.tempo_completamento = some 0) :
    tempo_attraversamento o = none := by
  unfold tempo_attraversamento
  rw [h]
  simp

/-- Witness for C9: one of the pre-seeded stock orders has its
completion time set to 0 and yet no lead time. -/
theorem spec_C9_witness :
    (ordineStock .FL_01 0).tempo_completamento = some 0
    ∧ tempo_attraversamento (ordineStock .FL_01 0) = none :=
  ⟨rfl, spec_C9 _ rfl⟩

/-- Claim C10: calcola_tasso_utilizzo is total: for a horizon of 0, or
a capacity reported as 0, it returns 0 instead of dividing by zero;
otherwise it returns (processing + setup) / (horizon * capacity) * 100,
with breakdown time excluded from the numerator. -/
theorem spec_C10 (st : StatoMacchina) (orizzonte : ℚ) :
    calcola_tasso_utilizzo st 0 = 0
    ∧ (st.capacita = 0 → calcola_tasso_utilizzo st orizzonte = 0)
    ∧ (orizzonte ≠ 0 → st.capacita ≠ 0 →
        calcola_tasso_utilizzo st orizzonte =
          (st.tempo_lavorazione + st.tempo_setup) / (orizzonte * (st.capacita : ℚ)) * 100) := by
  refine ⟨?_, ?_, ?_⟩
  · unfold calcola_tasso_utilizzo
    simp
  · intro hc
    simp [calcola_tasso_utilizzo, hc]
  · intro ho hc
    unfold calcola_tasso_utilizzo
    rw [if_neg ho, if_neg hc]

def macchinaC10 : StatoMacchina :=
  { capacita := 2, tempo_lavorazione := 30, tempo_setup := 10, tempo_guasto := 50 }

def macchinaC10senzaCapacita : StatoMacchina :=
  { capacita := 0, tempo_lavorazione := 30 }

/-- Witness for C10: the three branches at concrete states; breakdown
time (50 min here) does not enter the 20 percent figure. -/
theorem spec_C10_witness :
    calcola_tasso_utilizzo macchinaC10 0 = 0
    ∧ calcola_tasso_utilizzo macchinaC10senzaCapacita 100 = 0
    ∧ calcola_tasso_utilizzo macchinaC10 100 = 20 := by
  refine ⟨(spec_C10 macchinaC10 0).1, (spec_C10 macchinaC10senzaCapacita 100).2.1 rfl, ?_⟩
  have h := (spec_C10 macchinaC10 100).2.2 (by norm_num) (by decide)
  rw [h]
  norm_num [macchinaC10]

def ordineC5 : OrdineDiLavoro :=
  { id := "WO-C5", prodotto := { id := .PN_03, nome := "Perno" },
    tempo_creazione := 0, scadenza := 0 }

/-- Counterexample for C5: under SPT the priority of an operation with
base duration 21/2 is the truncated value 10, not the base duration
itself as claimed. -/
theorem spec_C5_counterexample :
    ((priorita .SPT ordineC5 (21/2) : ℤ) : ℚ) = 10 ∧ ((21 : ℚ)/2) ≠ 10 := by
  constructor
  · with_unfolding_all rfl
  · norm_num

/-- Claim C5 (amended): the priority used to acquire the machine (and,
unchanged, any operator) is 0 under FIFO, the base duration truncated
toward zero (its floor, for the nonnegative durations of the
configuration tables) under SPT, and the due time truncated the same
way under EDD, 0 when the due time is unset or zero; lower values are
granted first by the priority resource. -/
theorem spec_C5_amended (ordine : OrdineDiLavoro) (d : ℚ)
    (hd : 0 ≤ d) (hs : 0 ≤ ordine.scadenza) :
    priorita .FIFO ordine d = 0
    ∧ priorita .SPT ordine d = ⌊d⌋
    ∧ ((priorita .SPT ordine d : ℤ) : ℚ) ≤ d
    ∧ d - 1 < ((priorita .SPT ordine d : ℤ) : ℚ)
    ∧ (ordine.scadenza ≠ 0 → priorita .EDD ordine d = ⌊ordine.scadenza⌋)
    ∧ (ordine.scadenza = 0 → priorita .EDD ordine d = 0) := by
  have hfl : priorita .SPT ordine d = ⌊d⌋ := pyint_eq_floor d hd
  refine ⟨rfl, hfl, ?_, ?_, ?_, ?_⟩
  · rw [hfl]
    exact_mod_cast Int.floor_le d
  · rw [hfl]
    exact_mod_cast Int.sub_one_lt_floor d
  · intro h
    unfold priorita
    rw [if_pos h]
    exact pyint_eq_floor _ hs
  · intro h
    unfold priorita
    rw [if_neg (by simp [h])]

def ordineC5w : OrdineDiLavoro :=
  { id := "WO-C5W", prodotto := { id := .PN_03, nome := "Perno" },
    tempo_creazione := 0, scadenza := 5/2 }

/-- Witness for the amended C5 at concrete inputs. -/
theorem spec_C5_witness :
    priorita .FIFO ordineC5w (21/2) = 0
    ∧ priorita .SPT ordineC5w (21/2) = 10
    ∧ priorita .EDD ordineC5w (21/2) = 2 := by
  obtain ⟨a, b, -, -, e, -⟩ :=
    spec_C5_amended ordineC5w (21/2) (by norm_num) (by norm_num [ordineC5w])
  refine ⟨a, ?_, ?_⟩
  · rw [b]
    with_unfolding_all rfl
  · rw [e (by norm_num [ordineC5w])]
    with_unfolding_all rfl

/-- Counterexample for C3: for FL-01 the main sequence executes the
control bench twice, so its total base duration under the base
configuration is 40, while the estimator returns 30. -/
theorem spec_C3_counterexample :
    stima_tempo_ciclo .FL01 configurazione_base = 30
    ∧ sommaDurate configurazione_base (opsPrincipali .FL01) = 40
    ∧ (30 : ℚ) ≠ 40 := by
  refine ⟨by with_unfolding_all rfl, by with_unfolding_all rfl, by norm_num⟩

/-- Claim C3 (amended): for PN-03, IN-07 and RD-01 the pure estimator
stima_tempo_ciclo equals the sum of the base durations of the
operations the main sequence actually executes; for FL-01 the main
sequence executes the control bench twice while the estimator counts it
once, so the estimate falls short of the executed total by exactly one
control-bench duration. -/
theorem spec_C3_amended (cfg : ConfigurazioneSimulazione) :
    stima_tempo_ciclo .PN03 cfg = sommaDurate cfg (opsPrincipali .PN03)
    ∧ stima_tempo_ciclo .IN07 cfg = sommaDurate cfg (opsPrincipali .IN07)
    ∧ stima_tempo_ciclo .RD01 cfg = sommaDurate cfg (opsPrincipali .RD01)
    ∧ stima_tempo_ciclo .FL01 cfg + cfg.tempi_lavorazione .bancoControllo .FL_01
        = sommaDurate cfg (opsPrincipali .FL01) := by
  refine ⟨?_, ?_, ?_, ?_⟩ <;>
    (simp only [stima_tempo_ciclo, sommaDurate, opsPrincipali]; ring)

/-- Counterexample for C1: the configured bill of materials lists 2
units of PN-03 (and no IN-07) for RD-01, but the assembling process
withdraws 0 units of PN-03 and 2 units of IN-07. -/
theorem spec_C1_counterexample :
    (configurazione_base.distinta_base.map fun f => f .RD_01 .PN_03) = some 2
    ∧ prelieviRD01.count TipoProdotto.PN_03 = 0
    ∧ (configurazione_base.distinta_base.map fun f => f .RD_01 .IN_07) = some 0
    ∧ prelieviRD01.count TipoProdotto.IN_07 = 2
    ∧ (2 : ℕ) ≠ 0 := by
  refine ⟨by decide, by decide, by decide, by decide, by norm_num⟩

/-- Claim C1 (amended): assembling one unit of RD-01 withdraws, via
blocking gets before its first operation, a hardcoded one unit of FL-01
and two units of IN-07 from the intermediate buffer (the configured
distinta_base, which lists FL-01 and PN-03, is not consulted); each
store length decreases by exactly the withdrawn quantity, the withdrawn
orders are the oldest entries, and with insufficient stock the process
blocks rather than proceeding to its operations. -/
theorem spec_C1_amended (ordine : OrdineDiLavoro) (sys : Sistema) :
    (∀ esito, prelievoRD01 ordine sys = some esito →
        esito.2.mag_fl01.length + prelieviRD01.count TipoProdotto.FL_01
          = sys.mag_fl01.length
        ∧ esito.2.mag_in07.length + prelieviRD01.count TipoProdotto.IN_07
          = sys.mag_in07.length
        ∧ esito.1.componenti_consumati = ordine.componenti_consumati ++
            ((sys.mag_fl01.take 1 ++ sys.mag_in07.take 2).map OrdineDiLavoro.id))
    ∧ (sys.mag_fl01 = [] ∨ sys.mag_in07.length < 2 →
        prelievoRD01 ordine sys = none) := by
  constructor
  · intro esito h
    obtain ⟨-, -, -, -, a, b, c⟩ := prelievoRD01_some ordine sys esito h
    refine ⟨?_, ?_, c⟩
    · simpa [prelieviRD01] using a
    · simpa [prelieviRD01] using b
  · intro h
    rcases hf : sys.mag_fl01 with - | ⟨f, fs⟩
    · unfold prelievoRD01
      rw [hf]
    · rcases hi : sys.mag_in07 with - | ⟨a, resto⟩
      · unfold prelievoRD01
        rw [hf, hi]
      · rcases resto with - | ⟨b, coda⟩
        · unfold prelievoRD01
          rw [hf, hi]
        · exfalso
          rcases h with h | h
          · rw [hf] at h
            simp at h
          · rw [hi] at h
            simp at h
            omega

def ordineC1 : OrdineDiLavoro :=
  { id := "WO-RD", prodotto := { id := .RD_01, nome := "Riduttore" },
    tempo_creazione := 0, scadenza := 2880 }

def sistemaC1 : Sistema := sistemaIniziale configurazione_base 0

def sistemaC1vuoto : Sistema := { sistemaC1 with mag_fl01 := [] }

/-- Witness for the amended C1: on the pre-seeded warehouse the
withdrawal leaves 19 FL-01 and 38 IN-07, and with an empty FL-01 store
it blocks. -/
theorem spec_C1_witness :
    ((prelievoRD01 ordineC1 sistemaC1).map fun esito =>
        decide (esito.2.mag_fl01.length + prelieviRD01.count TipoProdotto.FL_01
          = sistemaC1.mag_fl01.length)
        && decide (esito.2.mag_in07.length + prelieviRD01.count TipoProdotto.IN_07
          = sistemaC1.mag_in07.length)) = some true
    ∧ prelievoRD01 ordineC1 sistemaC1vuoto = none := by
  constructor
  · cases e : prelievoRD01 ordineC1 sistemaC1 with
    | none =>
      have hs : (prelievoRD01 ordineC1 sistemaC1).isSome = true := by decide
      rw [e] at hs
      simp at hs
    | some esito =>
      obtain ⟨a, b, -⟩ := (spec_C1_amended ordineC1 sistemaC1).1 esito e
      simp only [Option.map_some', Option.some.injEq]
      rw [decide_eq_true a, decide_eq_true b]
      rfl
  · exact (spec_C1_amended ordineC1 sistemaC1vuoto).2 (Or.inl rfl)

def macchinaC2 : StatoMacchina := { ultimo_prodotto := some .FL_01 }

/-- Counterexample for C2: with the base configuration (shift end
17:00, setup 15 min) a changeover starting at minute 1015 of day 0
(16:55) ends at 1030 with the plain timeout the code uses, i.e. ten
minutes past the shift end, whereas the shift-aware consumption of the
same 15 minutes through the repository's avanza_tempo_lavorativo ends
at 1930 (day 1, 08:10): the setup delay is not split across the shift
boundary. -/
theorem spec_C2_counterexample :
    (setupStep configurazione_base .PN_03 macchinaC2 1015).2 = 1030
    ∧ avanzaTempoLavorativo 10 configurazione_base
        configurazione_base.tempo_setup_minuti 1015 = some 1930
    ∧ ((1030 : ℚ) ≠ 1930)
    ∧ ((configurazione_base.orario_fine_turno * 60 : ℤ) : ℚ)
        < pymod (setupStep configurazione_base .PN_03 macchinaC2 1015).2
            ((MINUTI_GIORNALIERI : ℤ) : ℚ) := by
  refine ⟨by with_unfolding_all rfl, by with_unfolding_all rfl, by norm_num, ?_⟩
  with_unfolding_all decide

/-- Claim C2 (amended): when the last-processed product differs from
the current product and a positive setup duration is configured, the
setup duration is consumed as one plain delay of exactly
tempo_setup_minuti (not shift-aware), recorded as setup usage (the
setup and total-busy counters grow by the setup duration) with an
event-log entry covering [now, now + setup], and the last-processed
marker is updated to the current product regardless of whether a setup
occurred. -/
theorem spec_C2_amended (cfg : ConfigurazioneSimulazione) (p q : TipoProdotto)
    (mac : StatoMacchina) (now : ℚ)
    (h1 : mac.ultimo_prodotto = some q) (h2 : q ≠ p)
    (h3 : 0 < cfg.tempo_setup_minuti) :
    (setupStep cfg p mac now).2 = now + cfg.tempo_setup_minuti
    ∧ (setupStep cfg p mac now).1.tempo_setup = mac.tempo_setup + cfg.tempo_setup_minuti
    ∧ (setupStep cfg p mac now).1.tempo_occupato_totale
        = mac.tempo_occupato_totale + cfg.tempo_setup_minuti
    ∧ (setupStep cfg p mac now).1.tempo_lavorazione = mac.tempo_lavorazione
    ∧ (setupStep cfg p mac now).1.tempo_guasto = mac.tempo_guasto
    ∧ (setupStep cfg p mac now).1.log_eventi = mac.log_eventi ++
        [{ tipo := "setup", inizio := now, fine := now + cfg.tempo_setup_minuti,
           ordine := none, descrizione := "Setup" }]
    ∧ ∀ (mac' : StatoMacchina), (setupStep cfg p mac' now).1.ultimo_prodotto = some p := by
  have key : setupStep cfg p mac now =
      ({ registra_tempo_utilizzo mac cfg.tempo_setup_minuti .setup with
          ultimo_prodotto := some p,
          log_eventi := (registra_tempo_utilizzo mac cfg.tempo_setup_minuti .setup).log_eventi
            ++ [{ tipo := "setup", inizio := now + cfg.tempo_setup_minuti - cfg.tempo_setup_minuti,
                  fine := now + cfg.tempo_setup_minuti,
                  ordine := none, descrizione := "Setup" }] },
        now + cfg.tempo_setup_minuti) := by
    unfold setupStep
    rw [h1]
    simp only
    rw [if_pos h2, if_pos h3]
  rw [key]
  refine ⟨rfl, ?_, ?_, ?_, ?_, ?_, fun mac' => rfl⟩
  · simp [registra_tempo_utilizzo]
  · simp [registra_tempo_utilizzo]
  · simp [registra_tempo_utilizzo]
  · simp [registra_tempo_utilizzo]
  · simp only [registra_tempo_utilizzo, add_sub_cancel_right]

/-- Witness for the amended C2 at a concrete configuration and state. -/
theorem spec_C2_witness :
    (setupStep configurazione_base .PN_03 macchinaC2 1015).2
      = 1015 + configurazione_base.tempo_setup_minuti
    ∧ (setupStep configurazione_base .PN_03 macchinaC2 1015).1.tempo_setup
      = macchinaC2.tempo_setup + configurazione_base.tempo_setup_minuti
    ∧ (setupStep configurazione_base .PN_03 macchinaC2 1015).1.ultimo_prodotto
      = some .PN_03 := by
  obtain ⟨a, b, -, -, -, -, e⟩ :=
    spec_C2_amended configurazione_base .PN_03 .FL_01 macchinaC2 1015 rfl
      (by decide) (by norm_num [configurazione_base])
  exact ⟨a, b, e macchinaC2⟩

/-- Claim C4: before dispatch, when either the per-product or the
global daily cap is already met for the current simulated day (day
computed as int(now / 1440), counters reset when a later day is
detected), the process is put to sleep until exactly the next day's
shift opening, 1440 * (day + 1) + shift-start * 60, with the counters
untouched, and the loop re-checks on wakeup; otherwise the per-product
counter and the global counter are both incremented and dispatch
proceeds at the same instant — the check and the increment form one
step of the state function, with no suspension point in between. -/
theorem spec_C4 (cfg : ConfigurazioneSimulazione) (p : TipoProdotto) (now : ℚ)
    (st : StatoGiornaliero) (h0 : 0 ≤ now) :
    (capRaggiunto cfg p (resetGiorno (pyint (now / ((MINUTI_GIORNALIERI : ℤ) : ℚ))) st) = true →
      gateStep cfg p now st = .attendi
        (((MINUTI_GIORNALIERI : ℤ) : ℚ)
            * ((pyint (now / ((MINUTI_GIORNALIERI : ℤ) : ℚ)) : ℤ) + 1)
          + ((cfg.orario_inizio_turno * 60 : ℤ) : ℚ))
        (resetGiorno (pyint (now / ((MINUTI_GIORNALIERI : ℤ) : ℚ))) st))
    ∧ (capRaggiunto cfg p (resetGiorno (pyint (now / ((MINUTI_GIORNALIERI : ℤ) : ℚ))) st) = false →
      gateStep cfg p now st = .procedi
        (incrementaContatori p (resetGiorno (pyint (now / ((MINUTI_GIORNALIERI : ℤ) : ℚ))) st)))
    ∧ (∀ st1 : StatoGiornaliero,
        (incrementaContatori p st1).produzione_giornaliera_per_prodotto.get p
          = st1.produzione_giornaliera_per_prodotto.get p + 1
        ∧ (incrementaContatori p st1).produzione_giornaliera_totale
          = st1.produzione_giornaliera_totale + 1
        ∧ ∀ q : TipoProdotto, q ≠ p →
            (incrementaContatori p st1).produzione_giornaliera_per_prodotto.get q
              = st1.produzione_giornaliera_per_prodotto.get q) := by
  have hfloor : pyint (now / ((MINUTI_GIORNALIERI : ℤ) : ℚ)) = ⌊now / 1440⌋ := by
    have : (0 : ℚ) ≤ now / ((MINUTI_GIORNALIERI : ℤ) : ℚ) := by
      unfold MINUTI_GIORNALIERI
      positivity
    rw [pyint_eq_floor _ this]
    unfold MINUTI_GIORNALIERI
    norm_num
  refine ⟨?_, ?_, ?_⟩
  · intro hc
    simp only [gateStep]
    rw [hc]
    simp only [if_true]
    have harith : now + (((MINUTI_GIORNALIERI : ℤ) : ℚ)
          - pymod now ((MINUTI_GIORNALIERI : ℤ) : ℚ)
          + ((cfg.orario_inizio_turno * 60 : ℤ) : ℚ))
        = ((MINUTI_GIORNALIERI : ℤ) : ℚ)
            * ((pyint (now / ((MINUTI_GIORNALIERI : ℤ) : ℚ)) : ℤ) + 1)
          + ((cfg.orario_inizio_turno * 60 : ℤ) : ℚ) := by
      rw [hfloor]
      unfold pymod MINUTI_GIORNALIERI
      push_cast
      ring
    rw [← harith]
  · intro hc
    simp only [gateStep]
    rw [hc]
    simp
  · intro st1
    refine ⟨?_, rfl, ?_⟩
    · cases p <;> rfl
    · intro q hq
      cases p <;> cases q <;> first | rfl | exact absurd rfl hq

def configurazioneC4 : ConfigurazioneSimulazione :=
  { configurazione_base with
    limiti_produzione_giornaliera := some (fun _ => some 2),
    limite_produzione_totale_giornaliera := some 10 }

def statoC4saturo : StatoGiornaliero :=
  { giorno_corrente := 0,
    produzione_giornaliera_per_prodotto := { fl01 := 2 },
    produzione_giornaliera_totale := 2 }

def statoC4libero : StatoGiornaliero :=
  { giorno_corrente := 0,
    produzione_giornaliera_per_prodotto := { fl01 := 1 },
    produzione_giornaliera_totale := 1 }

/-- Witness for C4: at minute 500 of day 0 with the FL-01 cap (2)
already met the gate sleeps until minute 1920 (day 1, 08:00) leaving
the counters alone; one unit below the cap it reserves capacity,
incrementing both counters, and proceeds. -/
theorem spec_C4_witness :
    gateStep configurazioneC4 .FL_01 500 statoC4saturo = .attendi 1920 statoC4saturo
    ∧ gateStep configurazioneC4 .FL_01 500 statoC4libero
        = .procedi { giorno_corrente := 0,
                     produzione_giornaliera_per_prodotto := { fl01 := 2 },
                     produzione_giornaliera_totale := 2 } := by
  obtain ⟨a, -, -⟩ := spec_C4 configurazioneC4 .FL_01 500 statoC4saturo (by norm_num)
  obtain ⟨-, b, -⟩ := spec_C4 configurazioneC4 .FL_01 500 statoC4libero (by norm_num)
  constructor
  · rw [a (by with_unfolding_all rfl)]
    with_unfolding_all rfl
  · rw [b (by with_unfolding_all rfl)]
    with_unfolding_all rfl

/-- Claim C6: for every work order completed by a strategy, the
completion time stamped at the end of its routing is strictly greater
than its creation time (the routing executes at least one operation,
each consuming a strictly positive effective duration), and
tempo_attraversamento then returns completion minus creation. -/
theorem spec_C6 (s : Strategia) (fuel : ℕ) (cfg : ConfigurazioneSimulazione)
    (ordine : OrdineDiLavoro) (sys : Sistema) (esito : OrdineDiLavoro × Sistema)
    (h0 : 0 ≤ ordine.tempo_creazione) (h1 : ordine.tempo_creazione ≤ sys.now)
    (h2 : eseguiProcesso s fuel cfg ordine sys = some esito) :
    esito.1.tempo_completamento = some esito.2.now
    ∧ ordine.tempo_creazione < esito.2.now
    ∧ tempo_attraversamento esito.1 = some (esito.2.now - ordine.tempo_creazione) := by
  obtain ⟨a, b, c⟩ := eseguiProcesso_some s fuel cfg ordine sys esito h2
  have hlt : ordine.tempo_creazione < esito.2.now := lt_of_le_of_lt h1 a
  refine ⟨b, hlt, ?_⟩
  have hne : ¬ esito.2.now = 0 := ne_of_gt (lt_of_le_of_lt h0 hlt)
  unfold tempo_attraversamento
  rw [b]
  simp only
  rw [if_neg hne, c]

def configurazioneC6 : ConfigurazioneSimulazione :=
  { configurazione_base with probabilita_guasto := 0, probabilita_rifacimento := 0 }

def ordineC6 : OrdineDiLavoro :=
  { id := "WO-C6", prodotto := { id := .FL_01, nome := "Flangia" },
    tempo_creazione := 0, scadenza := 1000 }

def sistemaC6 : Sistema := sistemaIniziale configurazioneC6 1

/-- Witness for C6: a concrete FL-01 run from time 0 (completion at
minute 520: shift opens at 480, then 10+10+10+10 minutes of work). -/
theorem spec_C6_witness :
    ((eseguiProcesso .FL01 20 configurazioneC6 ordineC6 sistemaC6).map fun esito =>
        decide (esito.1.tempo_completamento = some esito.2.now)
        && decide (ordineC6.tempo_creazione < esito.2.now)
        && decide (tempo_attraversamento esito.1
             = some (esito.2.now - ordineC6.tempo_creazione))) = some true := by
  cases e : eseguiProcesso .FL01 20 configurazioneC6 ordineC6 sistemaC6 with
  | none =>
    have hs : (eseguiProcesso .FL01 20 configurazioneC6 ordineC6 sistemaC6).isSome = true := by
      with_unfolding_all rfl
    rw [e] at hs
    simp at hs
  | some esito =>
    obtain ⟨a, b, c⟩ := spec_C6 .FL01 20 configurazioneC6 ordineC6 sistemaC6 esito
      (le_refl 0) (le_refl 0) e
    simp only [Option.map_some', Option.some.injEq]
    rw [decide_eq_true a, decide_eq_true b, decide_eq_true c]
    rfl

/-- Claim C7: two runs constructed with the same random seed, the same
configuration and the same input order of dispatched work orders
produce identical sequences of per-resource event logs; in this
embedding every stochastic decision (process variability, breakdown
roll, repair duration, rework roll) draws from the single generator
seeded by the engine and threaded through the run, so the logs are a
function of (seed, configuration, input order) alone. -/
theorem spec_C7 (fuel : ℕ) (seme1 seme2 : ℕ)
    (cfg1 cfg2 : ConfigurazioneSimulazione)
    (ordini1 ordini2 : List OrdineDiLavoro)
    (h1 : seme1 = seme2) (h2 : cfg1 = cfg2) (h3 : ordini1 = ordini2) :
    (simRun seme1 cfg1 ordini1 fuel).map logsEventi
      = (simRun seme2 cfg2 ordini2 fuel).map logsEventi := by
  rw [h1, h2, h3]

/-- Witness for C7 at a concrete seed, configuration and order list. -/
theorem spec_C7_witness :
    (simRun 42 configurazioneC6 [ordineC6] 20).map logsEventi
      = (simRun 42 configurazioneC6 [ordineC6] 20).map logsEventi :=
  spec_C7 20 42 42 configurazioneC6 configurazioneC6 [ordineC6] [ordineC6] rfl rfl rfl

end DigitalTwinRossi
